import Mathlib

/-!
Verification of the Zigbee window-covering demo (window-covering sketch) and
the SCD41 CO2/temperature/humidity sketch.

The window-covering sketch keeps its device state in module-level globals
(`currentLift`, `currentLiftPercentage`, `currentTilt`, `currentTiltPercentage`,
`stop`, `moving`, `nextLift`, `nextTilt`).  We embed that state as a record and
each C function as a state transformer.  External `stopMotor()` invocations can
only be observed by the motion loop at step boundaries (during the `delay(250)`
of a step, where `moving` is invariably `true`), so a motion function takes a
schedule `stops : Nat → Bool` saying whether `stopMotor()` fired during the
delay of step `k`.  Position-changed notifications (`setLiftPercentage` /
`setTiltPercentage`, together with the per-step display redraw) are returned
as a trace of `(position, percentage)` pairs.
-/

namespace Blinds

/-- `#define MAX_LIFT 9` -/
def MAX_LIFT : Nat := 9

/-- `#define MIN_LIFT 0` -/
def MIN_LIFT : Nat := 0

/-- `#define MAX_TILT 5` -/
def MAX_TILT : Nat := 5

/-- `#define MIN_TILT 0` -/
def MIN_TILT : Nat := 0

/-- The module-level mutable globals of the window-covering sketch.
`nextLift` / `nextTilt` are the `int16_t` pending-request slots whose value
`-1` means "no pending request". -/
structure State where
  currentLift : Nat
  currentLiftPercentage : Nat
  currentTilt : Nat
  currentTiltPercentage : Nat
  stop : Bool
  moving : Bool
  nextLift : Int
  nextTilt : Int
deriving DecidableEq

/-- The initial values of the globals: fully closed, both percentages 100,
no pending requests. -/
def initialState : State :=
  { currentLift := MAX_LIFT, currentLiftPercentage := 100
    currentTilt := MAX_TILT, currentTiltPercentage := 100
    stop := false, moving := false, nextLift := -1, nextTilt := -1 }

/-- A quiescent state with given lift and tilt positions (used to state
properties quantified over starting positions). -/
def initStateAt (l t : Nat) : State :=
  { currentLift := l, currentLiftPercentage := l * 100 / MAX_LIFT
    currentTilt := t, currentTiltPercentage := t * 100 / MAX_LIFT
    stop := false, moving := false, nextLift := -1, nextTilt := -1 }

/-- Result of one motion's for-loop: final position, final reported
percentage, the value of the `stop` flag at loop exit, and the trace of
`(position, percentage)` notifications emitted (one per completed step). -/
structure MoveResult where
  pos : Nat
  pct : Nat
  stop : Bool
  trace : List (Nat × Nat)
deriving DecidableEq

/-- The body of `for (int i = current+step; i != target+step; i += step)` in
`moveCoversLift` / `moveCoversTilt`.  Since `step` is `±1` toward the target
and `i` starts at `current+step`, the C loop runs exactly `|target − current|`
iterations, so we recurse on that count `n` while carrying the loop variable
`i`.  Each iteration first checks the `stop` flag (clearing it and breaking
when set), then assigns `current = i`, emits the notification with percentage
`i*100/maxDen`, and sleeps; during the sleep an external `stopMotor()` may
fire (`stops k`), and since `moving` is `true` throughout the loop such a call
sets the `stop` flag.  On normal exit the `stop` flag is returned unchanged
(the source never clears it after the loop). -/
def moveLoop (maxDen : Nat) (stp i : Int) (n : Nat) (pos pct : Nat)
    (stop : Bool) (stops : Nat → Bool) (k : Nat) : MoveResult :=
  match n with
  | 0 => { pos := pos, pct := pct, stop := stop, trace := [] }
  | Nat.succ m =>
    if stop then { pos := pos, pct := pct, stop := false, trace := [] }
    else
      let pos' := i.toNat
      let pct' := pos' * 100 / maxDen
      let stop' := stop || stops k
      let r := moveLoop maxDen stp (i + stp) m pos' pct' stop' stops (k + 1)
      { r with trace := (pos', pct') :: r.trace }

/-- `moveCoversLift(uint16_t lift_position)`: early return when the target
equals the current position; otherwise run the step loop and finish with
`moving = false`.  The percentage denominator is `MAX_LIFT`. -/
def moveCoversLift (s : State) (lift_position : Nat) (stops : Nat → Bool) :
    State × List (Nat × Nat) :=
  if lift_position = s.currentLift then (s, [])
  else
    let stp : Int := if s.currentLift < lift_position then 1 else -1
    let n : Nat :=
      if s.currentLift < lift_position then lift_position - s.currentLift
      else s.currentLift - lift_position
    let r := moveLoop MAX_LIFT stp ((s.currentLift : Int) + stp) n
      s.currentLift s.currentLiftPercentage s.stop stops 0
    ({ s with currentLift := r.pos, currentLiftPercentage := r.pct
              stop := r.stop, moving := false }, r.trace)

/-- `moveCoversTilt(uint16_t tilt_position)`: identical shape, but the source
computes `currentTiltPercentage = (currentTilt * 100) / MAX_LIFT` — the
denominator is `MAX_LIFT`, not `MAX_TILT` (line 238), and the embedding keeps
that faithfully. -/
def moveCoversTilt (s : State) (tilt_position : Nat) (stops : Nat → Bool) :
    State × List (Nat × Nat) :=
  if tilt_position = s.currentTilt then (s, [])
  else
    let stp : Int := if s.currentTilt < tilt_position then 1 else -1
    let n : Nat :=
      if s.currentTilt < tilt_position then tilt_position - s.currentTilt
      else s.currentTilt - tilt_position
    let r := moveLoop MAX_LIFT stp ((s.currentTilt : Int) + stp) n
      s.currentTilt s.currentTiltPercentage s.stop stops 0
    ({ s with currentTilt := r.pos, currentTiltPercentage := r.pct
              stop := r.stop, moving := false }, r.trace)

/-- `stopMotor()`: sets the `stop` flag only when `moving` is true. -/
def stopMotor (s : State) : State :=
  if s.moving then { s with stop := true } else s

/-- `goToLiftPercentage(uint8_t liftPercentage)`: stores
`(liftPercentage * MAX_LIFT) / 100` (integer division) into `nextLift`. -/
def goToLiftPercentage (s : State) (liftPercentage : Nat) : State :=
  { s with nextLift := ((liftPercentage * MAX_LIFT / 100 : Nat) : Int) }

/-- `goToTiltPercentage(uint8_t tiltPercentage)`: stores
`(tiltPercentage * MAX_TILT) / 100` (integer division) into `nextTilt`. -/
def goToTiltPercentage (s : State) (tiltPercentage : Nat) : State :=
  { s with nextTilt := ((tiltPercentage * MAX_TILT / 100 : Nat) : Int) }

/-- `fullOpen()`: requests lift `MIN_LIFT`. -/
def fullOpen (s : State) : State :=
  { s with nextLift := (MIN_LIFT : Int) }

/-- `fullClose()`: requests lift `MAX_LIFT`. -/
def fullClose (s : State) : State :=
  { s with nextLift := (MAX_LIFT : Int) }

/-- A notification event, tagged by which axis emitted it. -/
inductive Ev where
  | lift (pos pct : Nat)
  | tilt (pos pct : Nat)
deriving DecidableEq

/-- Whether an event is a lift notification. -/
def Ev.isLift : Ev → Bool
  | .lift _ _ => true
  | .tilt _ _ => false

/-- Whether an event is a tilt notification. -/
def Ev.isTilt : Ev → Bool
  | .lift _ _ => false
  | .tilt _ _ => true

/-- The request-consumption part of `loop()` (lines 157–164): if `nextLift`
is not `-1`, run `moveCoversLift(nextLift)` and reset `nextLift = -1`; then
the same for tilt.  Key/button sampling is modelled as absent (no key event
in this invocation).  `stopsL` / `stopsT` are the external-stop schedules
seen by the two motions. -/
def loop (s : State) (stopsL stopsT : Nat → Bool) : State × List Ev :=
  let p1 :=
    if s.nextLift ≠ -1 then
      let r := moveCoversLift s s.nextLift.toNat stopsL
      ({ r.1 with nextLift := -1 }, r.2.map (fun vp => Ev.lift vp.1 vp.2))
    else (s, ([] : List Ev))
  let p2 :=
    if p1.1.nextTilt ≠ -1 then
      let r := moveCoversTilt p1.1 p1.1.nextTilt.toNat stopsT
      ({ r.1 with nextTilt := -1 }, r.2.map (fun vp => Ev.tilt vp.1 vp.2))
    else (p1.1, ([] : List Ev))
  (p2.1, p1.2 ++ p2.2)

/-- `|a − b|` on naturals, the number of steps a completed motion takes. -/
def natDist (a b : Nat) : Nat :=
  if a < b then b - a else a - b

/-- Checks that each adjacent pair in a visited-positions list differs by
exactly one unit, in the direction `sign(target − current)`. -/
def stepsOk (t : Nat) : List Nat → Bool
  | a :: b :: rest =>
    (b == if a < t then a + 1 else a - 1) && stepsOk t (b :: rest)
  | _ => true

end Blinds

namespace Scd

/-!
Embedding of `meausureAndReport()` from the CO2/temperature/humidity sketch.
The sensor is external: its three I2C operations are modelled by an
environment carrying the error code each would return and the readings the
successful read-out would deliver.  The float readings are represented as
integers, since only whether they flow into the endpoints matters here.
-/

/-- The SCD41 operations `meausureAndReport` can attempt, in source order. -/
inductive SensorOp where
  | wakeUp
  | measureSingleShot
  | measureAndReadSingleShot
deriving DecidableEq

/-- Environment for one measurement cycle: the `int16_t` error code of each
sensor call and the values a successful read-out yields. -/
structure ScdEnv where
  wakeUpErr : Int
  measureSingleShotErr : Int
  measureAndReadErr : Int
  co2 : Nat
  temperature : Int
  humidity : Int
deriving DecidableEq

/-- The observable Zigbee endpoint state: the last values handed to
`setTemperature` / `setHumidity` / `setCarbonDioxide` and how many times each
endpoint's `report()` ran. -/
structure ZbEndpoints where
  temperature : Int
  humidity : Int
  co2 : Nat
  tempReports : Nat
  co2Reports : Nat
deriving DecidableEq

/-- Output of one `meausureAndReport()` call: the endpoint state afterwards,
the error codes printed, and the sensor operations attempted. -/
structure MeasureOut where
  zb : ZbEndpoints
  errLog : List Int
  ops : List SensorOp
deriving DecidableEq

/-- `meausureAndReport()`: wake the sensor, discard a first single-shot
measurement, then measure-and-read; on the first nonzero error code the error
is printed and the function returns, leaving the endpoints untouched; on
success all three endpoint values are set and both endpoints report. -/
def meausureAndReport (env : ScdEnv) (z : ZbEndpoints) : MeasureOut :=
  if env.wakeUpErr ≠ 0 then
    { zb := z, errLog := [env.wakeUpErr], ops := [SensorOp.wakeUp] }
  else if env.measureSingleShotErr ≠ 0 then
    { zb := z, errLog := [env.measureSingleShotErr]
      ops := [SensorOp.wakeUp, SensorOp.measureSingleShot] }
  else if env.measureAndReadErr ≠ 0 then
    { zb := z, errLog := [env.measureAndReadErr]
      ops := [SensorOp.wakeUp, SensorOp.measureSingleShot,
              SensorOp.measureAndReadSingleShot] }
  else
    { zb := { temperature := env.temperature, humidity := env.humidity
              co2 := env.co2, tempReports := z.tempReports + 1
              co2Reports := z.co2Reports + 1 }
      errLog := []
      ops := [SensorOp.wakeUp, SensorOp.measureSingleShot,
              SensorOp.measureAndReadSingleShot] }

end Scd

namespace Blinds

/-- Every notification the step loop emits carries the percentage computed
from its own position by integer division by `maxDen`. -/
theorem moveLoop_trace_pct (maxDen : Nat) (stops : Nat → Bool) :
    ∀ (n : Nat) (stp i : Int) (pos pct : Nat) (st : Bool) (k : Nat),
      ∀ vp ∈ (moveLoop maxDen stp i n pos pct st stops k).trace,
        vp.2 = vp.1 * 100 / maxDen := by
  intro n
  induction n with
  | zero =>
    intro stp i pos pct st k vp hvp
    simp [moveLoop] at hvp
  | succ m ih =>
    intro stp i pos pct st k vp hvp
    by_cases hst : st
    · simp [moveLoop, hst] at hvp
    · simp only [moveLoop, hst, if_neg, Bool.false_eq_true, ite_false,
        List.mem_cons] at hvp
      rcases hvp with h | h
      · subst h; rfl
      · exact ih stp (i + stp) i.toNat (i.toNat * 100 / maxDen) _ (k + 1) vp h

/-- C1: for every start `s` and target `t` within an axis's bounds, running
the step loop to completion without cancellation leaves the axis exactly at
`t`, takes exactly `|t − s|` steps, and each step moves one unit in the
direction `sign(target − current)`, adjacent visited values differing by 1. -/
theorem tick_runs_to_target :
    (∀ s, s ≤ MAX_LIFT → ∀ t, t ≤ MAX_LIFT →
      (moveCoversLift (initStateAt s MAX_TILT) t (fun _ => false)).1.currentLift = t ∧
      (moveCoversLift (initStateAt s MAX_TILT) t (fun _ => false)).2.length = natDist s t ∧
      stepsOk t (s :: (moveCoversLift (initStateAt s MAX_TILT) t (fun _ => false)).2.map Prod.fst) = true) ∧
    (∀ s, s ≤ MAX_TILT → ∀ t, t ≤ MAX_TILT →
      (moveCoversTilt (initStateAt MAX_LIFT s) t (fun _ => false)).1.currentTilt = t ∧
      (moveCoversTilt (initStateAt MAX_LIFT s) t (fun _ => false)).2.length = natDist s t ∧
      stepsOk t (s :: (moveCoversTilt (initStateAt MAX_LIFT s) t (fun _ => false)).2.map Prod.fst) = true) := by
  decide

/-- Witness for C1 at `s = 9`, `t = 3` on the lift axis. -/
theorem tick_runs_to_target_witness :
    (moveCoversLift (initStateAt 9 MAX_TILT) 3 (fun _ => false)).1.currentLift = 3 ∧
    (moveCoversLift (initStateAt 9 MAX_TILT) 3 (fun _ => false)).2.length = natDist 9 3 ∧
    stepsOk 3 (9 :: (moveCoversLift (initStateAt 9 MAX_TILT) 3 (fun _ => false)).2.map Prod.fst) = true :=
  tick_runs_to_target.1 9 (by decide) 3 (by decide)

/-- C2 counterexample: lifting from 9 to 3 reports the percentages
`88,77,66,55,44,33` (integer truncation), not the claimed rounded values
`89,78,67,56,44,33`. -/
theorem lift_scenario_round_counterexample :
    (moveCoversLift initialState 3 (fun _ => false)).2.map Prod.snd ≠
      [89, 78, 67, 56, 44, 33] := by
  decide

/-- C2 amended: from start 9 with target 3 the motion visits `8,7,6,5,4,3`
in order, reports percentages `88,77,66,55,44,33` (computed as
`(v*100)/9`, truncated), ends at 3 with the motion flag back to idle. -/
theorem lift_scenario_trunc_pct :
    (moveCoversLift initialState 3 (fun _ => false)).2.map Prod.fst =
      [8, 7, 6, 5, 4, 3] ∧
    (moveCoversLift initialState 3 (fun _ => false)).2.map Prod.snd =
      [88, 77, 66, 55, 44, 33] ∧
    (moveCoversLift initialState 3 (fun _ => false)).1.currentLift = 3 ∧
    (moveCoversLift initialState 3 (fun _ => false)).1.moving = false := by
  decide

/-- C3 counterexample: the first tilt step from 5 toward 4 reports the
percentage 44 = `(4*100)/MAX_LIFT`, while `round(100×4/MAX_TILT)` is
`4*100/5 = 80` (exact, no rounding involved). -/
theorem tilt_pct_denominator_counterexample :
    (moveCoversTilt initialState 4 (fun _ => false)).2 = [(4, 44)] ∧
    (44 : Nat) ≠ 4 * 100 / MAX_TILT := by
  decide

/-- C3 amended: after every completed step of either axis, the reported
percentage equals `(value*100)/MAX_LIFT` — truncated division, and with the
lift axis's maximum as denominator for both axes (the tilt percentage is not
a function of `MAX_TILT`). -/
theorem step_pct_truncated_lift_max :
    ∀ (s : State) (t : Nat) (stops : Nat → Bool),
      (∀ vp ∈ (moveCoversLift s t stops).2, vp.2 = vp.1 * 100 / MAX_LIFT) ∧
      (∀ vp ∈ (moveCoversTilt s t stops).2, vp.2 = vp.1 * 100 / MAX_LIFT) := by
  intro s t stops
  constructor
  · intro vp hvp
    by_cases h : t = s.currentLift
    · simp [moveCoversLift, h] at hvp
    · simp only [moveCoversLift, h, ite_false, if_neg, not_false_iff] at hvp
      exact moveLoop_trace_pct MAX_LIFT stops _ _ _ _ _ _ _ vp hvp
  · intro vp hvp
    by_cases h : t = s.currentTilt
    · simp [moveCoversTilt, h] at hvp
    · simp only [moveCoversTilt, h, ite_false, if_neg, not_false_iff] at hvp
      exact moveLoop_trace_pct MAX_LIFT stops _ _ _ _ _ _ _ vp hvp

/-- Witness for C3's amended statement: the notification `(8, 88)` of the
lift run from 9 to 3 satisfies `88 = 8*100/MAX_LIFT`. -/
theorem step_pct_truncated_lift_max_witness :
    (8, 88) ∈ (moveCoversLift initialState 3 (fun _ => false)).2 ∧
    (88 : Nat) = 8 * 100 / MAX_LIFT :=
  ⟨by decide,
    (step_pct_truncated_lift_max initialState 3 (fun _ => false)).1 (8, 88)
      (by decide)⟩

set_option synthInstance.maxHeartbeats 2000000 in
set_option synthInstance.maxSize 2048 in
set_option maxHeartbeats 2000000 in
/-- C4: `stopMotor()` while idle changes nothing; a stop that fires during
the delay of step `j` of a lift motion (with more steps still to go) halts
the motion at the next step boundary: exactly `j+1` notifications were
emitted, the position equals the last notified value — `j+1` units from the
start, short of the target — and the motion and stop flags are clear. -/
theorem cancel_mid_motion :
    (∀ s : State, s.moving = false → stopMotor s = s) ∧
    (∀ s, s ≤ MAX_LIFT → ∀ t, t ≤ MAX_LIFT → ∀ j, j < MAX_LIFT →
      j + 1 < natDist s t →
      (moveCoversLift (initStateAt s MAX_TILT) t (fun k => k == j)).2.length = j + 1 ∧
      ((moveCoversLift (initStateAt s MAX_TILT) t (fun k => k == j)).2.map Prod.fst).getLast? =
        some (moveCoversLift (initStateAt s MAX_TILT) t (fun k => k == j)).1.currentLift ∧
      (moveCoversLift (initStateAt s MAX_TILT) t (fun k => k == j)).1.currentLift =
        (if s < t then s + (j + 1) else s - (j + 1)) ∧
      (moveCoversLift (initStateAt s MAX_TILT) t (fun k => k == j)).1.currentLift ≠ t ∧
      (moveCoversLift (initStateAt s MAX_TILT) t (fun k => k == j)).1.moving = false ∧
      (moveCoversLift (initStateAt s MAX_TILT) t (fun k => k == j)).1.stop = false) := by
  constructor
  · intro s h
    simp [stopMotor, h]
  · decide

/-- Witness for C4: idle cancel at the initial state, and a stop during step
1 of the motion from 9 toward 3, which halts at position 7 after two steps. -/
theorem cancel_mid_motion_witness :
    stopMotor initialState = initialState ∧
    (moveCoversLift (initStateAt 9 MAX_TILT) 3 (fun k => k == 1)).2.length = 1 + 1 ∧
    (moveCoversLift (initStateAt 9 MAX_TILT) 3 (fun k => k == 1)).1.currentLift ≠ 3 :=
  ⟨cancel_mid_motion.1 initialState rfl,
    (cancel_mid_motion.2 9 (by decide) 3 (by decide) 1 (by decide) (by decide)).1,
    (cancel_mid_motion.2 9 (by decide) 3 (by decide) 1 (by decide) (by decide)).2.2.2.1⟩

/-- C5: a stop that fires during the delay of a motion's final step leaves
the `stop` flag set although the motion completes normally (here the
one-step lift from 9 to 8); in the same `loop()` pass the pending tilt
request to 3 is then consumed but terminates at its first cancellation
check — zero steps, zero notifications, tilt still at 5 — with the flag
cleared, even though no stop was requested during the tilt motion. -/
theorem residual_stop_cancels_next_motion :
    (moveCoversLift { initialState with nextLift := 8, nextTilt := 3 } 8
        (fun k => k == 0)).1.stop = true ∧
    (moveCoversLift { initialState with nextLift := 8, nextTilt := 3 } 8
        (fun k => k == 0)).1.currentLift = 8 ∧
    (moveCoversLift { initialState with nextLift := 8, nextTilt := 3 } 8
        (fun k => k == 0)).2.length = 1 ∧
    loop { initialState with nextLift := 8, nextTilt := 3 }
        (fun k => k == 0) (fun _ => false) =
      ({ currentLift := 8, currentLiftPercentage := 88, currentTilt := 5
         currentTiltPercentage := 100, stop := false, moving := false
         nextLift := -1, nextTilt := -1 }, [Ev.lift 8 88]) := by
  decide

/-- C6 counterexample: `goToLiftPercentage(50)` stores target 4
(`(50*9)/100` truncated), not `round(50×9/100) = 5`. -/
theorem goto_lift_pct_round_counterexample :
    (goToLiftPercentage initialState 50).nextLift ≠ 5 := by
  decide

/-- C6 amended: the percent-to-value translation stores the truncated value
`(p*Max)/100` as the pending request for the corresponding axis, and for
`p ≤ 100` that value lies within the axis bounds; at `p = 50`, `Max = 9` the
stored lift target is 4. -/
theorem goto_pct_truncates :
    ∀ (s : State) (p : Nat), p ≤ 100 →
      (goToLiftPercentage s p).nextLift = ((p * MAX_LIFT / 100 : Nat) : Int) ∧
      (goToTiltPercentage s p).nextTilt = ((p * MAX_TILT / 100 : Nat) : Int) ∧
      p * MAX_LIFT / 100 ≤ MAX_LIFT ∧
      p * MAX_TILT / 100 ≤ MAX_TILT := by
  intro s p hp
  refine ⟨rfl, rfl, ?_, ?_⟩
  · unfold MAX_LIFT
    omega
  · unfold MAX_TILT
    omega

/-- Witness for C6's amended statement at `p = 50`. -/
theorem goto_pct_truncates_witness :
    (goToLiftPercentage initialState 50).nextLift = ((50 * MAX_LIFT / 100 : Nat) : Int) ∧
    (goToTiltPercentage initialState 50).nextTilt = ((50 * MAX_TILT / 100 : Nat) : Int) ∧
    50 * MAX_LIFT / 100 ≤ MAX_LIFT ∧
    50 * MAX_TILT / 100 ≤ MAX_TILT :=
  goto_pct_truncates initialState 50 (by decide)

/-- Consuming a single pending lift request `p` (issued by
`goToLiftPercentage`) through the loop body ends with the lift at the
truncated target `(p*9)/100`. -/
theorem consume_lift_pct :
    ∀ c, c ≤ MAX_LIFT → ∀ p, p ≤ 100 →
      (loop (goToLiftPercentage (initStateAt c MAX_TILT) p)
        (fun _ => false) (fun _ => false)).1.currentLift = p * MAX_LIFT / 100 := by
  decide

/-- Consuming a single pending tilt request `p` (issued by
`goToTiltPercentage`) through the loop body ends with the tilt at the
truncated target `(p*5)/100`. -/
theorem consume_tilt_pct :
    ∀ c, c ≤ MAX_TILT → ∀ p, p ≤ 100 →
      (loop (goToTiltPercentage (initStateAt MAX_LIFT c) p)
        (fun _ => false) (fun _ => false)).1.currentTilt = p * MAX_TILT / 100 := by
  decide

/-- C7: a second request issued before the first pending one is consumed
leaves the state identical to issuing only the second request
(last-write-wins on the single `nextLift` / `nextTilt` slot, for the
percentage handlers as well as `fullOpen` / `fullClose`), and running the
loop body afterwards reaches only the final request's target. -/
theorem second_request_overwrites :
    (∀ (s : State) (p1 p2 : Nat),
      goToLiftPercentage (goToLiftPercentage s p1) p2 = goToLiftPercentage s p2 ∧
      goToTiltPercentage (goToTiltPercentage s p1) p2 = goToTiltPercentage s p2 ∧
      goToLiftPercentage (fullOpen s) p2 = goToLiftPercentage s p2 ∧
      goToLiftPercentage (fullClose s) p2 = goToLiftPercentage s p2 ∧
      fullClose (goToLiftPercentage s p1) = fullClose s) ∧
    (∀ c, c ≤ MAX_LIFT → ∀ (p1 p2 : Nat), p2 ≤ 100 →
      (loop (goToLiftPercentage (goToLiftPercentage (initStateAt c MAX_TILT) p1) p2)
        (fun _ => false) (fun _ => false)).1.currentLift = p2 * MAX_LIFT / 100) ∧
    (∀ c, c ≤ MAX_TILT → ∀ (p1 p2 : Nat), p2 ≤ 100 →
      (loop (goToTiltPercentage (goToTiltPercentage (initStateAt MAX_LIFT c) p1) p2)
        (fun _ => false) (fun _ => false)).1.currentTilt = p2 * MAX_TILT / 100) := by
  refine ⟨fun s p1 p2 => ⟨rfl, rfl, rfl, rfl, rfl⟩, ?_, ?_⟩
  · intro c hc p1 p2 hp2
    exact consume_lift_pct c hc p2 hp2
  · intro c hc p1 p2 hp2
    exact consume_tilt_pct c hc p2 hp2

/-- Witness for C7: overwriting 30% with 50% at the initial state, then
consuming the request, ends the lift at 4 = `(50*9)/100`. -/
theorem second_request_overwrites_witness :
    (goToLiftPercentage (goToLiftPercentage initialState 30) 50 =
      goToLiftPercentage initialState 50) ∧
    (loop (goToLiftPercentage (goToLiftPercentage (initStateAt 9 MAX_TILT) 30) 50)
      (fun _ => false) (fun _ => false)).1.currentLift = 50 * MAX_LIFT / 100 :=
  ⟨(second_request_overwrites.1 initialState 30 50).1,
    second_request_overwrites.2.1 9 (by decide) 30 50 (by decide)⟩

/-- A lift motion never touches the pending tilt slot. -/
theorem moveCoversLift_nextTilt (s : State) (t : Nat) (stops : Nat → Bool) :
    (moveCoversLift s t stops).1.nextTilt = s.nextTilt := by
  by_cases h : t = s.currentLift <;> simp [moveCoversLift, h]

/-- When both axes have pending requests the loop body equals: run the lift
motion to completion or cancellation, clear `nextLift`, then run the tilt
motion from the resulting state, clear `nextTilt`, and emit the lift
notifications followed by the tilt notifications. -/
theorem loop_both_pending_eq (s : State) (stopsL stopsT : Nat → Bool)
    (hL : s.nextLift ≠ -1) (hT : s.nextTilt ≠ -1) :
    loop s stopsL stopsT =
      ({ (moveCoversTilt { (moveCoversLift s s.nextLift.toNat stopsL).1 with
            nextLift := -1 } s.nextTilt.toNat stopsT).1 with nextTilt := -1 },
        (moveCoversLift s s.nextLift.toNat stopsL).2.map
          (fun vp => Ev.lift vp.1 vp.2) ++
        (moveCoversTilt { (moveCoversLift s s.nextLift.toNat stopsL).1 with
            nextLift := -1 } s.nextTilt.toNat stopsT).2.map
          (fun vp => Ev.tilt vp.1 vp.2)) := by
  simp [loop, hL, hT, moveCoversLift_nextTilt]

/-- C8: within one loop-body invocation with both requests pending, the
event stream splits into the complete lift motion's notifications followed
by tilt notifications only — the lift request is serviced fully (to
completion or cancellation) before the tilt request begins, with no
interleaving. -/
theorem lift_before_tilt_in_loop :
    ∀ (s : State) (stopsL stopsT : Nat → Bool),
      s.nextLift ≠ -1 → s.nextTilt ≠ -1 →
      ∃ evL evT,
        (loop s stopsL stopsT).2 = evL ++ evT ∧
        evL = (moveCoversLift s s.nextLift.toNat stopsL).2.map
          (fun vp => Ev.lift vp.1 vp.2) ∧
        (∀ e ∈ evL, e.isLift = true) ∧
        (∀ e ∈ evT, e.isTilt = true) := by
  intro s stopsL stopsT hL hT
  refine ⟨(moveCoversLift s s.nextLift.toNat stopsL).2.map
      (fun vp => Ev.lift vp.1 vp.2),
    (moveCoversTilt { (moveCoversLift s s.nextLift.toNat stopsL).1 with
        nextLift := -1 } s.nextTilt.toNat stopsT).2.map
      (fun vp => Ev.tilt vp.1 vp.2), ?_, rfl, ?_, ?_⟩
  · exact congrArg Prod.snd (loop_both_pending_eq s stopsL stopsT hL hT)
  · intro e he
    rcases List.mem_map.mp he with ⟨vp, _, rfl⟩
    rfl
  · intro e he
    rcases List.mem_map.mp he with ⟨vp, _, rfl⟩
    rfl

/-- Witness for C8, with lift 8 and tilt 3 pending at the initial state. -/
theorem lift_before_tilt_in_loop_witness :
    ∃ evL evT,
      (loop { initialState with nextLift := 8, nextTilt := 3 }
        (fun _ => false) (fun _ => false)).2 = evL ++ evT ∧
      evL = (moveCoversLift { initialState with nextLift := 8, nextTilt := 3 }
        (Int.toNat (8 : Int)) (fun _ => false)).2.map (fun vp => Ev.lift vp.1 vp.2) ∧
      (∀ e ∈ evL, e.isLift = true) ∧
      (∀ e ∈ evT, e.isTilt = true) :=
  lift_before_tilt_in_loop { initialState with nextLift := 8, nextTilt := 3 }
    (fun _ => false) (fun _ => false) (by decide) (by decide)

/-- C10: consuming a request whose target equals the current position is a
complete no-op: the move function returns at once with the state unchanged
and no notification emitted, for either axis. -/
theorem noop_when_target_equals_current :
    ∀ (s : State) (stops : Nat → Bool),
      moveCoversLift s s.currentLift stops = (s, []) ∧
      moveCoversTilt s s.currentTilt stops = (s, []) := by
  intro s stops
  exact ⟨by simp [moveCoversLift], by simp [moveCoversTilt]⟩

end Blinds

namespace Scd

/-- C9: if waking the sensor, the discarded first single-shot measurement,
or the read-out returns a nonzero error code, the measurement cycle is
abandoned: exactly one error is reported, the Zigbee endpoint values and
report counters are untouched, and no sensor operation is retried within
the cycle. -/
theorem sensor_error_abandons_cycle :
    ∀ (env : ScdEnv) (z : ZbEndpoints),
      env.wakeUpErr ≠ 0 ∨ env.measureSingleShotErr ≠ 0 ∨
        env.measureAndReadErr ≠ 0 →
      (meausureAndReport env z).zb = z ∧
      (meausureAndReport env z).errLog.length = 1 ∧
      (meausureAndReport env z).ops.Nodup := by
  intro env z h
  unfold meausureAndReport
  by_cases h1 : env.wakeUpErr ≠ 0
  · rw [if_pos h1]
    exact ⟨rfl, rfl, (by decide : ([SensorOp.wakeUp] : List SensorOp).Nodup)⟩
  · rw [if_neg h1]
    by_cases h2 : env.measureSingleShotErr ≠ 0
    · rw [if_pos h2]
      exact ⟨rfl, rfl,
        (by decide :
          ([SensorOp.wakeUp, SensorOp.measureSingleShot] : List SensorOp).Nodup)⟩
    · rw [if_neg h2]
      by_cases h3 : env.measureAndReadErr ≠ 0
      · rw [if_pos h3]
        exact ⟨rfl, rfl,
          (by decide :
            ([SensorOp.wakeUp, SensorOp.measureSingleShot,
              SensorOp.measureAndReadSingleShot] : List SensorOp).Nodup)⟩
      · exfalso
        rcases h with h | h | h
        · exact h1 h
        · exact h2 h
        · exact h3 h

/-- Witness for C9: a failing wake-up (error code 268) leaves the endpoints
untouched. -/
theorem sensor_error_abandons_cycle_witness :
    (meausureAndReport
        { wakeUpErr := 268, measureSingleShotErr := 0, measureAndReadErr := 0
          co2 := 600, temperature := 25, humidity := 40 }
        { temperature := 0, humidity := 0, co2 := 0
          tempReports := 0, co2Reports := 0 }).zb =
      { temperature := 0, humidity := 0, co2 := 0
        tempReports := 0, co2Reports := 0 } ∧
    (meausureAndReport
        { wakeUpErr := 268, measureSingleShotErr := 0, measureAndReadErr := 0
          co2 := 600, temperature := 25, humidity := 40 }
        { temperature := 0, humidity := 0, co2 := 0
          tempReports := 0, co2Reports := 0 }).errLog.length = 1 ∧
    (meausureAndReport
        { wakeUpErr := 268, measureSingleShotErr := 0, measureAndReadErr := 0
          co2 := 600, temperature := 25, humidity := 40 }
        { temperature := 0, humidity := 0, co2 := 0
          tempReports := 0, co2Reports := 0 }).ops.Nodup :=
  sensor_error_abandons_cycle
    { wakeUpErr := 268, measureSingleShotErr := 0, measureAndReadErr := 0
      co2 := 600, temperature := 25, humidity := 40 }
    { temperature := 0, humidity := 0, co2 := 0
      tempReports := 0, co2Reports := 0 }
    (Or.inl (by decide))

end Scd
